import Mathlib

/-!
Verification of the iterative critique-refine loop and the mock tool
functions of the `ai-agents-kaggle-x-google` repository.

The repository wires pre-built framework agents around prompt text; the
pieces with executable content embedded here are:

* `src/Day-2/agent_tools.py`: `get_fee_for_payment_method` and
  `get_exchange_rate`, pure dictionary lookups;
* `src/Day-1/agent_architectures.py`: `exit_loop`, and the key wiring of
  the story-refinement pipeline (`initial_writer` writes `story_draft`,
  `critic_agent` reads `{story_draft}` and writes `critique`,
  `refiner_agent` reads `{story_draft}`/`{critique}` and writes
  `current_story`, per each agent's `output_key` and instruction template);
* the iterative-refinement controller itself (drafter once, then a bounded
  critic/refiner loop with approval-gated exit), whose loop mechanics live
  in the imported `google.adk` framework and are therefore modelled from
  the specification (spec §4.1), as marked on each such definition.

Python values appearing in the tool dictionaries are strings and numeric
literals; numbers are modelled as exact rationals (`mkRat 2 100` for the
source literal `0.02`, and so on) since the code only stores and returns
them, never computes with them.
-/

/-- A Python value as it appears in the tool-result dictionaries of the
source: either a string or a number. -/
inductive PyVal where
  | str : String → PyVal
  | num : ℚ → PyVal
deriving DecidableEq, Repr

/-- A Python dictionary with string keys, as returned by the tools;
insertion order of the source literals is kept. -/
abbrev PyDict := List (String × PyVal)

/-- Python's `str.lower()` on one character, for the ASCII range the
source's lookup keys live in: uppercase `A`–`Z` (codes 65–90) map to the
corresponding lowercase letter, everything else is unchanged. -/
def pyCharLower (c : Char) : Char :=
  if 65 ≤ c.toNat ∧ c.toNat ≤ 90 then Char.ofNat (c.toNat + 32) else c

/-- Python's `str.lower()`: `pyCharLower` applied to every character. -/
def pyLower (s : String) : String := String.mk (s.data.map pyCharLower)

theorem pyCharLower_toNat (c : Char) (h : 65 ≤ c.toNat ∧ c.toNat ≤ 90) :
    (pyCharLower c).toNat = c.toNat + 32 := by
  unfold pyCharLower
  rw [if_pos h]
  have h1 : 97 ≤ c.toNat + 32 := by omega
  have h2 : c.toNat + 32 ≤ 122 := by omega
  set m := c.toNat + 32 with hm
  clear_value m
  interval_cases m <;> decide

theorem pyCharLower_eq_self (c : Char) (h : ¬(65 ≤ c.toNat ∧ c.toNat ≤ 90)) :
    pyCharLower c = c := by
  unfold pyCharLower
  rw [if_neg h]

theorem pyCharLower_idem (c : Char) : pyCharLower (pyCharLower c) = pyCharLower c := by
  by_cases h : 65 ≤ c.toNat ∧ c.toNat ≤ 90
  · refine pyCharLower_eq_self _ ?_
    rw [pyCharLower_toNat c h]
    omega
  · rw [pyCharLower_eq_self c h]
    exact pyCharLower_eq_self c h

theorem pyLower_idem (s : String) : pyLower (pyLower s) = pyLower s := by
  have hf : pyCharLower ∘ pyCharLower = pyCharLower := funext pyCharLower_idem
  unfold pyLower
  rw [List.map_map]
  rw [hf]

/-- The `fee_database` literal of `get_fee_for_payment_method`
(src/Day-2/agent_tools.py, lines 65–70); `mkRat 2 100` is the source's
`0.02`, `mkRat 25 1000` is `0.025`, `mkRat 1 100` is `0.01`. -/
def fee_database : List (String × ℚ) :=
  [("platinum credit card", mkRat 2 100),
   ("gold credit card", mkRat 25 1000),
   ("bank transfer", mkRat 1 100)]

/-- `get_fee_for_payment_method` (src/Day-2/agent_tools.py, lines 48–76):
`fee_database.get(method.lower())`, then either the success dictionary
with the fee or the error dictionary. -/
def get_fee_for_payment_method (method : String) : PyDict :=
  match fee_database.lookup (pyLower method) with
  | some fee => [("status", PyVal.str "success"), ("fee_percentage", PyVal.num fee)]
  | none => [("status", PyVal.str "error"),
             ("error_message", PyVal.str "payment method not found")]

/-- The `rate_database` literal of `get_exchange_rate`
(src/Day-2/agent_tools.py, lines 100–106); `mkRat 93 100` is the source's
`0.93`, `mkRat 1575 10` is `157.50`, `mkRat 8358 100` is `83.58`. -/
def rate_database : List (String × List (String × ℚ)) :=
  [("usd", [("eur", mkRat 93 100), ("jpy", mkRat 1575 10), ("inr", mkRat 8358 100)])]

/-- `get_exchange_rate` (src/Day-2/agent_tools.py, lines 83–120):
`rate_database.get(base_currency.lower(), {}).get(target_currency.lower())`,
then either the success dictionary with the rate or the error dictionary
whose message interpolates the original (un-lowercased) arguments. -/
def get_exchange_rate (base_currency target_currency : String) : PyDict :=
  match ((rate_database.lookup (pyLower base_currency)).getD []).lookup
      (pyLower target_currency) with
  | some rate => [("status", PyVal.str "success"), ("rate", PyVal.num rate)]
  | none => [("status", PyVal.str "error"),
             ("error_message", PyVal.str
               ("Unsupported currency pair: " ++ base_currency ++ "/" ++ target_currency))]

/-- `exit_loop` (src/Day-1/agent_architectures.py, lines 290–292): takes no
arguments, reads no state, and returns a fixed dictionary. -/
def exit_loop (_ : Unit) : PyDict :=
  [("status", PyVal.str "approved"),
   ("message", PyVal.str "Story approved, exiting loop.")]

/-- Closed form of `fee_database`'s lookup as a three-way case split. -/
theorem fee_lookup_eq (k : String) :
    fee_database.lookup k =
      if k = "platinum credit card" then some (mkRat 2 100)
      else if k = "gold credit card" then some (mkRat 25 1000)
      else if k = "bank transfer" then some (mkRat 1 100)
      else none := by
  rcases eq_or_ne k "platinum credit card" with h1 | h1
  · subst h1; decide
  rcases eq_or_ne k "gold credit card" with h2 | h2
  · subst h2; decide
  rcases eq_or_ne k "bank transfer" with h3 | h3
  · subst h3; decide
  rw [if_neg h1, if_neg h2, if_neg h3]
  simp only [fee_database, List.lookup]
  rw [beq_eq_false_iff_ne.mpr h1, beq_eq_false_iff_ne.mpr h2, beq_eq_false_iff_ne.mpr h3]

/-- Closed form of `get_fee_for_payment_method` as a case split on the
lowercased method name. -/
theorem get_fee_eq (method : String) :
    get_fee_for_payment_method method =
      if pyLower method = "platinum credit card" then
        [("status", PyVal.str "success"), ("fee_percentage", PyVal.num (mkRat 2 100))]
      else if pyLower method = "gold credit card" then
        [("status", PyVal.str "success"), ("fee_percentage", PyVal.num (mkRat 25 1000))]
      else if pyLower method = "bank transfer" then
        [("status", PyVal.str "success"), ("fee_percentage", PyVal.num (mkRat 1 100))]
      else
        [("status", PyVal.str "error"),
         ("error_message", PyVal.str "payment method not found")] := by
  unfold get_fee_for_payment_method
  rw [fee_lookup_eq]
  split_ifs <;> rfl

theorem mkRat_2_100 : (mkRat 2 100 : ℚ) = 0.02 := by norm_num [mkRat]

theorem mkRat_25_1000 : (mkRat 25 1000 : ℚ) = 0.025 := by norm_num [mkRat]

theorem mkRat_1_100 : (mkRat 1 100 : ℚ) = 0.01 := by norm_num [mkRat]

theorem mkRat_93_100 : (mkRat 93 100 : ℚ) = 0.93 := by norm_num [mkRat]

theorem mkRat_1575_10 : (mkRat 1575 10 : ℚ) = 157.50 := by norm_num [mkRat]

theorem mkRat_8358_100 : (mkRat 8358 100 : ℚ) = 83.58 := by norm_num [mkRat]

/-- C8: `get_fee_for_payment_method` returns the success dictionary exactly
for the three (lowercased) known payment methods with their table fees,
returns the fixed error dictionary otherwise, and is case-insensitive:
applying it to `method` and to `method.lower()` gives the same dictionary.
Totality (the Python function never raises) is inherent in the embedding:
the function is a total Lean function into `PyDict`. -/
theorem get_fee_for_payment_method_spec (method : String) (f : ℚ) :
    (get_fee_for_payment_method method =
        [("status", PyVal.str "success"), ("fee_percentage", PyVal.num f)] ↔
      (pyLower method = "platinum credit card" ∧ f = 0.02) ∨
      (pyLower method = "gold credit card" ∧ f = 0.025) ∨
      (pyLower method = "bank transfer" ∧ f = 0.01)) ∧
    (get_fee_for_payment_method method =
        [("status", PyVal.str "error"),
         ("error_message", PyVal.str "payment method not found")] ↔
      ¬(pyLower method = "platinum credit card" ∨ pyLower method = "gold credit card" ∨
        pyLower method = "bank transfer")) ∧
    get_fee_for_payment_method method = get_fee_for_payment_method (pyLower method) := by
  have d12 : ("platinum credit card" : String) ≠ "gold credit card" := by decide
  have d13 : ("platinum credit card" : String) ≠ "bank transfer" := by decide
  have d23 : ("gold credit card" : String) ≠ "bank transfer" := by decide
  refine ⟨?_, ?_, ?_⟩
  · rw [get_fee_eq]
    split_ifs with h1 h2 h3
    · simp [h1, d12, d13, mkRat_2_100, eq_comm]
    · simp [h2, d12.symm, d23, mkRat_25_1000, eq_comm]
    · simp [h3, d13.symm, d23.symm, mkRat_1_100, eq_comm]
    · simp [h1, h2, h3]
  · rw [get_fee_eq]
    split_ifs with h1 h2 h3
    · simp [h1, d12, d13]
    · simp [h2, d12.symm, d23]
    · simp [h3, d13.symm, d23.symm]
    · simp [h1, h2, h3]
  · unfold get_fee_for_payment_method
    rw [pyLower_idem]

/-- Closed form of `rate_database`'s nested lookup. -/
theorem rate_lookup_eq (b t : String) :
    ((rate_database.lookup b).getD []).lookup t =
      (if b = "usd" then
        (if t = "eur" then some (mkRat 93 100)
         else if t = "jpy" then some (mkRat 1575 10)
         else if t = "inr" then some (mkRat 8358 100)
         else none)
      else none) := by
  rcases eq_or_ne b "usd" with hb | hb
  · subst hb
    rw [if_pos rfl]
    rcases eq_or_ne t "eur" with h1 | h1
    · subst h1; decide
    rcases eq_or_ne t "jpy" with h2 | h2
    · subst h2; decide
    rcases eq_or_ne t "inr" with h3 | h3
    · subst h3; decide
    rw [if_neg h1, if_neg h2, if_neg h3]
    have hdb : (rate_database.lookup "usd").getD [] =
        [("eur", mkRat 93 100), ("jpy", mkRat 1575 10), ("inr", mkRat 8358 100)] := by
      decide
    rw [hdb]
    simp only [List.lookup]
    rw [beq_eq_false_iff_ne.mpr h1, beq_eq_false_iff_ne.mpr h2, beq_eq_false_iff_ne.mpr h3]
  · rw [if_neg hb]
    have hdb : rate_database.lookup b = none := by
      simp only [rate_database, List.lookup]
      rw [beq_eq_false_iff_ne.mpr hb]
    rw [hdb]
    rfl

/-- Closed form of `get_exchange_rate` as a case split on the lowercased
currency pair. -/
theorem get_exchange_rate_eq (b t : String) :
    get_exchange_rate b t =
      (if pyLower b = "usd" then
        (if pyLower t = "eur" then
          [("status", PyVal.str "success"), ("rate", PyVal.num (mkRat 93 100))]
         else if pyLower t = "jpy" then
          [("status", PyVal.str "success"), ("rate", PyVal.num (mkRat 1575 10))]
         else if pyLower t = "inr" then
          [("status", PyVal.str "success"), ("rate", PyVal.num (mkRat 8358 100))]
         else
          [("status", PyVal.str "error"),
           ("error_message", PyVal.str ("Unsupported currency pair: " ++ b ++ "/" ++ t))])
      else
        [("status", PyVal.str "error"),
         ("error_message", PyVal.str ("Unsupported currency pair: " ++ b ++ "/" ++ t))]) := by
  unfold get_exchange_rate
  rw [rate_lookup_eq]
  split_ifs <;> rfl

/-- C9: `get_exchange_rate` returns the success dictionary exactly for the
three supported lowercased pairs `(usd, eur)`, `(usd, jpy)`, `(usd, inr)`
with their table rates, and for every other pair returns the error
dictionary whose message names the unsupported pair (interpolating the
original arguments). Totality (the Python function never raises) is
inherent in the embedding: the function is a total Lean function into
`PyDict`. -/
theorem get_exchange_rate_spec (b t : String) (r : ℚ) :
    (get_exchange_rate b t = [("status", PyVal.str "success"), ("rate", PyVal.num r)] ↔
      ((pyLower b, pyLower t) = ("usd", "eur") ∧ r = 0.93) ∨
      ((pyLower b, pyLower t) = ("usd", "jpy") ∧ r = 157.50) ∨
      ((pyLower b, pyLower t) = ("usd", "inr") ∧ r = 83.58)) ∧
    (get_exchange_rate b t =
        [("status", PyVal.str "error"),
         ("error_message", PyVal.str ("Unsupported currency pair: " ++ b ++ "/" ++ t))] ↔
      ¬((pyLower b, pyLower t) = ("usd", "eur") ∨ (pyLower b, pyLower t) = ("usd", "jpy") ∨
        (pyLower b, pyLower t) = ("usd", "inr"))) := by
  have dej : ("eur" : String) ≠ "jpy" := by decide
  have dei : ("eur" : String) ≠ "inr" := by decide
  have dji : ("jpy" : String) ≠ "inr" := by decide
  constructor
  · rw [get_exchange_rate_eq]
    split_ifs with hb h1 h2 h3
    · simp [hb, h1, dej, dei, mkRat_93_100, eq_comm]
    · simp [hb, h2, dej.symm, dji, mkRat_1575_10, eq_comm]
    · simp [hb, h3, dei.symm, dji.symm, mkRat_8358_100, eq_comm]
    · simp [hb, h1, h2, h3]
    · simp [hb]
  · rw [get_exchange_rate_eq]
    split_ifs with hb h1 h2 h3
    · simp [hb, h1, dej, dei]
    · simp [hb, h2, dej.symm, dji]
    · simp [hb, h3, dei.symm, dji.symm]
    · simp [hb, h1, h2, h3]
    · simp [hb]

/-- C10: `exit_loop` is a constant, argument-free function: every call
returns exactly `{'status': 'approved', 'message': 'Story approved,
exiting loop.'}`. The source function reads no state and writes none, so
in the embedding it is a pure function of its (unit) argument, with no
effect on any workspace. -/
theorem exit_loop_constant :
    (∀ u v : Unit, exit_loop u = exit_loop v) ∧
    exit_loop () = [("status", PyVal.str "approved"),
                    ("message", PyVal.str "Story approved, exiting loop.")] :=
  ⟨fun _ _ => rfl, rfl⟩

/-- Modelled from the spec: the Iterative Refinement Controller of §4.1,
whose loop mechanics live in the imported `google.adk` framework
(`LoopAgent`) and are not part of this repository's sources. The three
opaque stages and the configuration surface (`approvalSentinel`,
`maxIterations`) are as listed in spec §6; artifacts are opaque values of
type `A`. -/
structure Controller (A : Type) where
  drafter : String → A
  critic : A → String
  refineStage : A → String → A
  approvalSentinel : String
  maxIterations : Nat

/-- Modelled from the spec: the refiner stage's two outcomes (spec §4.1
step 2b and §9): either the exit signal or a revised artifact. -/
inductive RefinerOutput (A : Type) where
  | exitSignal : RefinerOutput A
  | revised : A → RefinerOutput A
deriving DecidableEq, Repr

/-- Modelled from the spec: the refiner stage (spec §4.1 step 2b). If the
critique exactly equals the approval sentinel (case-sensitive exact
match), it emits the exit signal instead of producing a new artifact;
otherwise it produces the revised artifact. -/
def refinerStage {A : Type} (c : Controller A) (artifact : A) (critique : String) :
    RefinerOutput A :=
  if critique = c.approvalSentinel then RefinerOutput.exitSignal
  else RefinerOutput.revised (c.refineStage artifact critique)

/-- One stage invocation, recorded in order in a run's trace. -/
inductive StageCall where
  | drafterCall : StageCall
  | criticCall : StageCall
  | refinerCall : StageCall
deriving DecidableEq, Repr

/-- Modelled from the spec: the termination reason of §4.1 step 4. -/
inductive TerminationReason where
  | approved : TerminationReason
  | exhausted : TerminationReason
deriving DecidableEq, Repr

/-- The observable outcome of one controller run: the final artifact, the
termination reason, and the ordered trace of stage invocations. -/
structure RunResult (A : Type) where
  finalArtifact : A
  reason : TerminationReason
  trace : List StageCall
deriving DecidableEq

/-- Modelled from the spec: the bounded critique-refine loop (spec §4.1
step 2), parametrised by the number of remaining iterations. Each
iteration invokes the critic on the latest artifact and then the refiner;
on the exit signal the loop terminates immediately with reason `approved`
and the artifact unchanged; on a revision the loop continues with the
revised artifact; with no iterations left it terminates with reason
`exhausted`. -/
def refinementLoop {A : Type} (c : Controller A) : Nat → A → RunResult A
  | 0, artifact => ⟨artifact, TerminationReason.exhausted, []⟩
  | n + 1, artifact =>
    match refinerStage c artifact (c.critic artifact) with
    | RefinerOutput.exitSignal =>
      ⟨artifact, TerminationReason.approved, [StageCall.criticCall, StageCall.refinerCall]⟩
    | RefinerOutput.revised a =>
      let r := refinementLoop c n a
      ⟨r.finalArtifact, r.reason, StageCall.criticCall :: StageCall.refinerCall :: r.trace⟩

/-- Modelled from the spec: `run(initialPrompt)` (spec §4.1): invoke the
drafter exactly once, then enter the bounded loop for at most
`maxIterations` iterations. -/
def Controller.run {A : Type} (c : Controller A) (initialPrompt : String) : RunResult A :=
  ⟨(refinementLoop c c.maxIterations (c.drafter initialPrompt)).finalArtifact,
   (refinementLoop c c.maxIterations (c.drafter initialPrompt)).reason,
   StageCall.drafterCall :: (refinementLoop c c.maxIterations (c.drafter initialPrompt)).trace⟩

/-- The artifact after `n` revision iterations starting from `a`: `artAfter
c a 0 = a` (the draft), and `artAfter c a n` for `n ≥ 1` is the refiner's
output on iteration `n`. -/
def artAfter {A : Type} (c : Controller A) (a : A) : Nat → A
  | 0 => a
  | n + 1 => c.refineStage (artAfter c a n) (c.critic (artAfter c a n))

/-- The strictly alternating trace of `n` critic/refiner iteration pairs,
starting with the critic. -/
def altTrace : Nat → List StageCall
  | 0 => []
  | n + 1 => StageCall.criticCall :: StageCall.refinerCall :: altTrace n

/-- Modelled from the spec: construction-time validation (spec §7):
`maxIterations < 0` is rejected with a `ConfigurationError`. -/
inductive ConfigurationError where
  | negativeMaxIterations : ConfigurationError
deriving DecidableEq, Repr

/-- Modelled from the spec: the controller constructor over the
configuration surface of spec §6, taking the iteration ceiling as an
integer and rejecting negative values at construction time (spec §7). -/
def mkController {A : Type} (drafter : String → A) (critic : A → String)
    (refineStage : A → String → A) (approvalSentinel : String) (maxIterations : Int) :
    Except ConfigurationError (Controller A) :=
  if maxIterations < 0 then Except.error ConfigurationError.negativeMaxIterations
  else Except.ok ⟨drafter, critic, refineStage, approvalSentinel, maxIterations.toNat⟩

/-- Unfolding lemma: an iteration whose critique is the sentinel ends the
loop at once with reason `approved` and the artifact unchanged. -/
theorem refinementLoop_succ_exit {A : Type} (c : Controller A) (n : Nat) (a : A)
    (h : c.critic a = c.approvalSentinel) :
    refinementLoop c (n + 1) a =
      ⟨a, TerminationReason.approved, [StageCall.criticCall, StageCall.refinerCall]⟩ := by
  simp [refinementLoop, refinerStage, h]

/-- Unfolding lemma: an iteration whose critique is not the sentinel
revises the artifact and continues. -/
theorem refinementLoop_succ_revise {A : Type} (c : Controller A) (n : Nat) (a : A)
    (h : c.critic a ≠ c.approvalSentinel) :
    refinementLoop c (n + 1) a =
      ⟨(refinementLoop c n (c.refineStage a (c.critic a))).finalArtifact,
       (refinementLoop c n (c.refineStage a (c.critic a))).reason,
       StageCall.criticCall :: StageCall.refinerCall ::
         (refinementLoop c n (c.refineStage a (c.critic a))).trace⟩ := by
  simp [refinementLoop, refinerStage, h]

/-- Shifting the starting artifact by one revision step. -/
theorem artAfter_shift {A : Type} (c : Controller A) (a : A) (n : Nat) :
    artAfter c a (n + 1) = artAfter c (c.refineStage a (c.critic a)) n := by
  induction n with
  | zero => rfl
  | succ n ih =>
    show c.refineStage (artAfter c a (n + 1)) (c.critic (artAfter c a (n + 1))) = _
    rw [ih]
    rfl

/-- If no critique within the first `n` iterations is the sentinel, the
loop runs all `n` iterations, revising each time. -/
theorem refinementLoop_exhausted {A : Type} (c : Controller A) (n : Nat) (a : A)
    (h : ∀ i < n, c.critic (artAfter c a i) ≠ c.approvalSentinel) :
    refinementLoop c n a = ⟨artAfter c a n, TerminationReason.exhausted, altTrace n⟩ := by
  induction n generalizing a with
  | zero => rfl
  | succ n ih =>
    have h0 : c.critic a ≠ c.approvalSentinel := by
      have := h 0 (Nat.succ_pos n)
      simpa [artAfter] using this
    rw [refinementLoop_succ_revise c n a h0]
    have hrec := ih (c.refineStage a (c.critic a)) (by
      intro i hi
      have := h (i + 1) (by omega)
      rw [artAfter_shift] at this
      exact this)
    rw [hrec]
    have hart : artAfter c (c.refineStage a (c.critic a)) n = artAfter c a (n + 1) :=
      (artAfter_shift c a n).symm
    rw [hart]
    rfl

/-- If the first sentinel critique appears on iteration `j + 1` (so the
critiques of iterations `1 .. j` all request revision), the loop with at
least `j + 1` remaining iterations terminates there with reason
`approved`, the artifact as of the approval check, and `j + 1`
critic/refiner pairs in the trace. -/
theorem refinementLoop_approved {A : Type} (c : Controller A) (n j : Nat) (a : A)
    (hjn : j < n)
    (hno : ∀ i < j, c.critic (artAfter c a i) ≠ c.approvalSentinel)
    (happ : c.critic (artAfter c a j) = c.approvalSentinel) :
    refinementLoop c n a =
      ⟨artAfter c a j, TerminationReason.approved, altTrace (j + 1)⟩ := by
  induction j generalizing n a with
  | zero =>
    obtain ⟨m, rfl⟩ : ∃ m, n = m + 1 := ⟨n - 1, by omega⟩
    have h0 : c.critic a = c.approvalSentinel := by simpa [artAfter] using happ
    rw [refinementLoop_succ_exit c m a h0]
    rfl
  | succ j ih =>
    obtain ⟨m, rfl⟩ : ∃ m, n = m + 1 := ⟨n - 1, by omega⟩
    have h0 : c.critic a ≠ c.approvalSentinel := by
      have := hno 0 (Nat.succ_pos j)
      simpa [artAfter] using this
    rw [refinementLoop_succ_revise c m a h0]
    have hrec := ih m (c.refineStage a (c.critic a)) (by omega)
      (by
        intro i hi
        have := hno (i + 1) (by omega)
        rw [artAfter_shift] at this
        exact this)
      (by
        rw [← artAfter_shift]
        exact happ)
    rw [hrec]
    rw [← artAfter_shift]
    rfl

/-- The trace of any loop run is `m` strictly alternating critic/refiner
pairs for some `m` at most the remaining iteration count. -/
theorem refinementLoop_trace {A : Type} (c : Controller A) (n : Nat) (a : A) :
    ∃ m, m ≤ n ∧ (refinementLoop c n a).trace = altTrace m := by
  induction n generalizing a with
  | zero => exact ⟨0, Nat.le_refl 0, rfl⟩
  | succ n ih =>
    by_cases h : c.critic a = c.approvalSentinel
    · refine ⟨1, by omega, ?_⟩
      rw [refinementLoop_succ_exit c n a h]
      rfl
    · obtain ⟨m, hm, ht⟩ := ih (c.refineStage a (c.critic a))
      refine ⟨m + 1, by omega, ?_⟩
      rw [refinementLoop_succ_revise c n a h]
      show StageCall.criticCall :: StageCall.refinerCall ::
        (refinementLoop c n (c.refineStage a (c.critic a))).trace = altTrace (m + 1)
      rw [ht]
      rfl

/-- `altTrace m` contains `m` critic calls. -/
theorem altTrace_count_critic (m : Nat) :
    (altTrace m).count StageCall.criticCall = m := by
  induction m with
  | zero => rfl
  | succ m ih => simp [altTrace, List.count_cons, ih]

/-- `altTrace m` contains `m` refiner calls. -/
theorem altTrace_count_refiner (m : Nat) :
    (altTrace m).count StageCall.refinerCall = m := by
  induction m with
  | zero => rfl
  | succ m ih => simp [altTrace, List.count_cons, ih]

/-- A concrete controller instance for witness evaluations: the drafter
produces "draft-0"; the critic answers "needs work" until it sees the
artifact "refined", which it answers with the sentinel; refining always
produces "refined"; the ceiling is 3 as in spec §8's approval scenario. -/
def sampleController : Controller String where
  drafter := fun _ => "draft-0"
  critic := fun a => if a = "refined" then "APPROVED" else "needs work"
  refineStage := fun _ _ => "refined"
  approvalSentinel := "APPROVED"
  maxIterations := 3

/-- A concrete controller instance whose critic never approves, with
ceiling 2 as in the source's `story_refinement_loop`. -/
def stubbornController : Controller String where
  drafter := fun _ => "draft-0"
  critic := fun _ => "needs work"
  refineStage := fun a _ => a ++ "+"
  approvalSentinel := "APPROVED"
  maxIterations := 2

/-- A concrete controller instance with a zero iteration ceiling. -/
def zeroController : Controller String where
  drafter := fun p => "draft of " ++ p
  critic := fun _ => "needs work"
  refineStage := fun a _ => a
  approvalSentinel := "APPROVED"
  maxIterations := 0

/-- C1: with the approval sentinel "APPROVED" (the exact phrase demanded
of the critic in src/Day-1/agent_architectures.py lines 284 and 307), the
refiner stage takes the approval outcome (exit signal) precisely when the
critique is the exact, case-sensitive string "APPROVED"; every other
critique — including "approved", "Approved", "approved." and "APPROVED
please" — yields the revision outcome. -/
theorem approval_check_exact {A : Type} (c : Controller A) (artifact : A) (critique : String)
    (hs : c.approvalSentinel = "APPROVED") :
    (refinerStage c artifact critique = RefinerOutput.exitSignal ↔ critique = "APPROVED") ∧
    (critique ≠ "APPROVED" →
      refinerStage c artifact critique =
        RefinerOutput.revised (c.refineStage artifact critique)) ∧
    refinerStage c artifact "approved" ≠ RefinerOutput.exitSignal ∧
    refinerStage c artifact "Approved" ≠ RefinerOutput.exitSignal ∧
    refinerStage c artifact "approved." ≠ RefinerOutput.exitSignal ∧
    refinerStage c artifact "APPROVED please" ≠ RefinerOutput.exitSignal := by
  unfold refinerStage
  rw [hs]
  refine ⟨?_, ?_, ?_, ?_, ?_, ?_⟩
  · constructor
    · intro h
      by_contra hne
      rw [if_neg hne] at h
      exact RefinerOutput.noConfusion h
    · intro h
      rw [if_pos h]
  · intro h
    rw [if_neg h]
  all_goals
    rw [if_neg (by decide)]
    exact fun h => RefinerOutput.noConfusion h

/-- Witness for C1: the near-miss critique "approved" (lowercase) does not
trigger the approval outcome on the sample controller. -/
theorem approval_check_exact_witness :
    refinerStage sampleController "draft-0" "approved" ≠ RefinerOutput.exitSignal :=
  (approval_check_exact sampleController "draft-0" "approved" rfl).2.2.1

/-- C3: if the critiques of iterations `1 .. j` all request revision and
iteration `j + 1 ≤ maxIterations` produces exactly the sentinel, the run
terminates at iteration `j + 1` with reason `approved`; the refiner of
that iteration emits the exit signal (not a revised artifact), and the
final artifact is the artifact as of the approval check — the refiner
output of iteration `j`, or the draft when `j = 0`. -/
theorem approval_terminates_at_k {A : Type} (c : Controller A) (p : String) (j : Nat)
    (hj : j + 1 ≤ c.maxIterations)
    (hno : ∀ i < j, c.critic (artAfter c (c.drafter p) i) ≠ c.approvalSentinel)
    (happ : c.critic (artAfter c (c.drafter p) j) = c.approvalSentinel) :
    c.run p = ⟨artAfter c (c.drafter p) j, TerminationReason.approved,
               StageCall.drafterCall :: altTrace (j + 1)⟩ ∧
    refinerStage c (artAfter c (c.drafter p) j) (c.critic (artAfter c (c.drafter p) j)) =
      RefinerOutput.exitSignal := by
  have hloop := refinementLoop_approved c c.maxIterations j (c.drafter p) (by omega) hno happ
  constructor
  · unfold Controller.run
    rw [hloop]
  · unfold refinerStage
    rw [if_pos happ]

/-- Witness for C3: on the sample controller the critic revises once and
approves on iteration 2 (within the ceiling 3); the run stops there with
reason `approved` and the refiner output of iteration 1 as final
artifact. -/
theorem approval_terminates_at_k_witness :
    sampleController.run "story" =
      ⟨artAfter sampleController (sampleController.drafter "story") 1,
       TerminationReason.approved, StageCall.drafterCall :: altTrace 2⟩ ∧
    refinerStage sampleController (artAfter sampleController (sampleController.drafter "story") 1)
      (sampleController.critic (artAfter sampleController (sampleController.drafter "story") 1)) =
      RefinerOutput.exitSignal :=
  approval_terminates_at_k sampleController "story" 1 (by decide) (by decide) (by decide)

/-- C4: for any ceiling `N ≥ 1` and any run, the trace after the single
drafter call is a strictly alternating sequence of critic/refiner pairs
starting with the critic; the critic is invoked at most `N` times and the
refiner exactly as often as the critic. -/
theorem invocation_discipline {A : Type} (c : Controller A) (p : String)
    (_hN : 1 ≤ c.maxIterations) :
    (c.run p).trace.count StageCall.refinerCall =
      (c.run p).trace.count StageCall.criticCall ∧
    (c.run p).trace.count StageCall.criticCall ≤ c.maxIterations ∧
    (c.run p).trace =
      StageCall.drafterCall :: altTrace ((c.run p).trace.count StageCall.criticCall) := by
  obtain ⟨m, hm, ht⟩ := refinementLoop_trace c c.maxIterations (c.drafter p)
  have htr : (c.run p).trace = StageCall.drafterCall :: altTrace m := by
    unfold Controller.run
    rw [ht]
  have hc : (c.run p).trace.count StageCall.criticCall = m := by
    rw [htr]
    simp [List.count_cons, altTrace_count_critic]
  have hr : (c.run p).trace.count StageCall.refinerCall = m := by
    rw [htr]
    simp [List.count_cons, altTrace_count_refiner]
  refine ⟨?_, ?_, ?_⟩
  · rw [hc, hr]
  · rw [hc]
    exact hm
  · rw [hc]
    exact htr

/-- Witness for C4: the stubborn controller (ceiling 2, critic never
approves) runs critic and refiner exactly twice each, in strict
alternation after the one drafter call. -/
theorem invocation_discipline_witness :
    (stubbornController.run "story").trace.count StageCall.refinerCall =
      (stubbornController.run "story").trace.count StageCall.criticCall ∧
    (stubbornController.run "story").trace.count StageCall.criticCall ≤
      stubbornController.maxIterations ∧
    (stubbornController.run "story").trace =
      StageCall.drafterCall ::
        altTrace ((stubbornController.run "story").trace.count StageCall.criticCall) :=
  invocation_discipline stubbornController "story" (by decide)

/-- C5: if no critique within the `maxIterations` iterations is the
sentinel, the run terminates with reason `exhausted` (a normal
termination value, not an error) and the final artifact is the refiner's
output of iteration `maxIterations`. -/
theorem exhaustion_returns_last {A : Type} (c : Controller A) (p : String)
    (hno : ∀ i < c.maxIterations,
      c.critic (artAfter c (c.drafter p) i) ≠ c.approvalSentinel) :
    c.run p = ⟨artAfter c (c.drafter p) c.maxIterations, TerminationReason.exhausted,
               StageCall.drafterCall :: altTrace c.maxIterations⟩ := by
  have hloop := refinementLoop_exhausted c c.maxIterations (c.drafter p) hno
  unfold Controller.run
  rw [hloop]

/-- Witness for C5: the stubborn controller (critic always answers "needs
work", ceiling 2) exhausts its two iterations and returns the iteration-2
refiner output "draft-0++". -/
theorem exhaustion_returns_last_witness :
    stubbornController.run "story" =
      ⟨artAfter stubbornController (stubbornController.drafter "story")
         stubbornController.maxIterations,
       TerminationReason.exhausted,
       StageCall.drafterCall :: altTrace stubbornController.maxIterations⟩ :=
  exhaustion_returns_last stubbornController "story" (by decide)

/-- C6: with `maxIterations = 0` the run invokes the drafter exactly once
(the trace is the single drafter call, so the critic and refiner are
never invoked) and returns the drafter's output immediately with
termination reason `exhausted`. -/
theorem zero_ceiling_returns_draft {A : Type} (c : Controller A) (p : String)
    (h : c.maxIterations = 0) :
    c.run p = ⟨c.drafter p, TerminationReason.exhausted, [StageCall.drafterCall]⟩ := by
  unfold Controller.run
  rw [h]
  rfl

/-- Witness for C6: the zero-ceiling controller returns its draft at once. -/
theorem zero_ceiling_returns_draft_witness :
    zeroController.run "a story" =
      ⟨zeroController.drafter "a story", TerminationReason.exhausted,
       [StageCall.drafterCall]⟩ :=
  zero_ceiling_returns_draft zeroController "a story" rfl

/-- C7: constructing a controller with a negative iteration ceiling is
rejected at construction time with the `ConfigurationError`; no controller
value is produced, so no stage can ever be invoked. -/
theorem negative_ceiling_rejected {A : Type} (drafter : String → A) (critic : A → String)
    (refineStage : A → String → A) (approvalSentinel : String) (m : Int) (hm : m < 0) :
    mkController drafter critic refineStage approvalSentinel m =
      Except.error ConfigurationError.negativeMaxIterations ∧
    ∀ ctrl : Controller A,
      mkController drafter critic refineStage approvalSentinel m ≠ Except.ok ctrl := by
  unfold mkController
  rw [if_pos hm]
  exact ⟨rfl, fun ctrl h => Except.noConfusion h⟩

/-- Witness for C7: the ceiling -1 is rejected on concrete stages. -/
theorem negative_ceiling_rejected_witness :
    mkController (fun _ : String => "draft-0") (fun _ => "needs work") (fun a _ => a)
      "APPROVED" (-1) = Except.error ConfigurationError.negativeMaxIterations :=
  (negative_ceiling_rejected (fun _ : String => "draft-0") (fun _ => "needs work")
    (fun a _ => a) "APPROVED" (-1) (by decide)).1

/-- The shared session state ("Workspace", spec §3) the Day-1 story
pipeline threads through its agents: a mapping from `output_key` field
names to the string artifacts written so far. -/
abbrev Workspace := String → Option String

/-- Writing one field of the workspace: the `output_key` semantics of one
agent invocation (overwrite the named field, keep the rest). -/
def wsSet (ws : Workspace) (key value : String) : Workspace :=
  fun k => if k = key then some value else ws k

/-- The empty workspace at session start. -/
def emptyWorkspace : Workspace := fun _ => none

/-- The `initial_writer` invocation (src/Day-1/agent_architectures.py,
lines 259–269): its output is stored under its `output_key`
"story_draft". The drafting behaviour itself is an opaque function of the
user prompt. -/
def initialWriterStep (draftFn : String → String) (prompt : String) (ws : Workspace) :
    Workspace :=
  wsSet ws "story_draft" (draftFn prompt)

/-- The `critic_agent` invocation (src/Day-1/agent_architectures.py, lines
273–287): its instruction template reads the field `{story_draft}`, and
its output is stored under its `output_key` "critique". The critiquing
behaviour itself is an opaque function of the field it reads. -/
def criticStep (criticFn : Option String → String) (ws : Workspace) : Workspace :=
  wsSet ws "critique" (criticFn (ws "story_draft"))

/-- The `refiner_agent` invocation on the revision outcome
(src/Day-1/agent_architectures.py, lines 294–315): its instruction
template reads the fields `{story_draft}` and `{critique}`, and its
rewritten story is stored under its `output_key` "current_story". The
rewriting behaviour itself is an opaque function of the fields it
reads. -/
def refinerReviseStep (refineFn : Option String → Option String → String) (ws : Workspace) :
    Workspace :=
  wsSet ws "current_story" (refineFn (ws "story_draft") (ws "critique"))

/-- C2 (refuted on the code as wired in src): running draft, critique,
revise on concrete stage functions, iteration 1's refiner stores its
revision under "current_story" while "story_draft" keeps the original
draft, so iteration 2's critic — whose template reads `{story_draft}` —
computes its critique from the original draft "draft-0", not from the
refiner's iteration-1 artifact "refined story". -/
theorem critic_reads_stale_draft :
    (let draftFn : String → String := fun _ => "draft-0"
     let criticFn : Option String → String := fun a => "critique of " ++ a.getD ""
     let refineFn : Option String → Option String → String := fun _ _ => "refined story"
     let ws1 := initialWriterStep draftFn "a lighthouse story" emptyWorkspace
     let ws2 := criticStep criticFn ws1
     let ws3 := refinerReviseStep refineFn ws2
     ws2 "critique" = some "critique of draft-0" ∧
     ws2 "critique" ≠ some "APPROVED" ∧
     ws3 "current_story" = some "refined story" ∧
     ws3 "story_draft" = some "draft-0" ∧
     criticStep criticFn ws3 "critique" = some "critique of draft-0" ∧
     criticStep criticFn ws3 "critique" ≠ some (criticFn (ws3 "current_story"))) := by
  decide
